import Mathlib

/-!
Shallow embedding of the `reportportal_listener` Robot Framework listener
(`reportportal_listener/__init__.py` and `reportportal_listener/decorators.py`).

Remote reporting operations (`RobotService` methods and `RobotService.log`) are
external collaborators; each hook is modelled as a pure function from the
listener's mutable state and the hook's attribute dictionary to the new state
together with the list of remote calls issued, in order.  The `start_suite`
hook can raise (the pabot configuration error), so it returns `Except`; the
error value carries the calls issued before the raise.
-/

namespace RPL

/-! ## Exception classes and the retry decorator (`decorators.py`) -/

/-- Exception classes appearing in the retry decorators of the source:
the `urllib3.exceptions` classes imported by `__init__.py` and
`decorators.py`, the built-in `UnicodeEncodeError`, and the plain `Exception`
raised by `start_suite` for the pabot configuration error. -/
inductive ExcClass where
  | connectionError
  | httpError
  | newConnectionError
  | responseError
  | unicodeEncodeError
  | genericException
deriving DecidableEq, Repr

/-- Python `except` clauses match subclasses.  In the `urllib3` exception
hierarchy (external library), `HTTPError` is the root: `ConnectionError`
(an alias of `ProtocolError`), `ResponseError` and `NewConnectionError`
are all its subclasses, and none of them is a superclass of another one
of the listed classes.  `UnicodeEncodeError` and plain `Exception` are
unrelated to the `urllib3` classes for matching purposes. -/
def isSubclassOf (e c : ExcClass) : Bool :=
  e = c ||
    (c = ExcClass.httpError &&
      (e = ExcClass.connectionError || e = ExcClass.newConnectionError ||
       e = ExcClass.responseError))

/-- Whether an `except exceptions_to_check` clause catches an exception of
class `e`: some listed class is a superclass (or the class itself). -/
def catches (s : List ExcClass) (e : ExcClass) : Bool :=
  s.any (fun c => isSubclassOf e c)

/-- The tuple of the `@retry(...)` decorator on `start_suite` (line 98). -/
def start_suite_exceptions : List ExcClass :=
  [ExcClass.connectionError, ExcClass.httpError, ExcClass.responseError,
   ExcClass.newConnectionError, ExcClass.unicodeEncodeError]

/-- The tuple of the `@retry(...)` decorator on `end_suite` (line 132). -/
def end_suite_exceptions : List ExcClass :=
  [ExcClass.connectionError, ExcClass.httpError, ExcClass.responseError,
   ExcClass.unicodeEncodeError]

/-- The tuple of the `@retry(...)` decorator on `start_test` (line 157). -/
def start_test_exceptions : List ExcClass :=
  [ExcClass.connectionError, ExcClass.httpError, ExcClass.unicodeEncodeError,
   ExcClass.responseError]

/-- The tuple of the `@retry(...)` decorator on `end_test` (line 177). -/
def end_test_exceptions : List ExcClass :=
  [ExcClass.connectionError, ExcClass.unicodeEncodeError, ExcClass.responseError]

/-- The tuple of the `@retry(...)` decorator on `start_keyword` (line 199). -/
def start_keyword_exceptions : List ExcClass :=
  [ExcClass.connectionError, ExcClass.httpError, ExcClass.unicodeEncodeError,
   ExcClass.responseError]

/-- The tuple of the `@retry(...)` decorator on `end_keyword` (line 237). -/
def end_keyword_exceptions : List ExcClass :=
  [ExcClass.connectionError, ExcClass.httpError, ExcClass.unicodeEncodeError,
   ExcClass.responseError]

/-- Outcome of one invocation of the wrapped function: a normal return or a
raised exception of class `ε`. -/
inductive Attempt (ε α : Type) where
  | ok (a : α)
  | exc (e : ε)
deriving DecidableEq, Repr

/-- The loop body of `retry`'s `wrapped_f`.  The Python loop runs
`attempt = 0, 1, ..., retries`; here `remaining = retries - attempt`, so
`attempt < retries` is `remaining > 0`.  The wrapped function is modelled
as `f : Nat → Attempt ε α`, indexed by the attempt number.  The result is
paired with the number of invocations performed.  An exception whose class
is not caught by `check` propagates immediately; on the last attempt a
caught exception is re-raised (`raise` after the `No more retries` log). -/
def retryAux (check : ε → Bool) (f : Nat → Attempt ε α) :
    Nat → Nat → Attempt ε α × Nat
  | attempt, 0 =>
    match f attempt with
    | Attempt.ok a => (Attempt.ok a, 1)
    | Attempt.exc e => (Attempt.exc e, 1)
  | attempt, remaining + 1 =>
    match f attempt with
    | Attempt.ok a => (Attempt.ok a, 1)
    | Attempt.exc e =>
      if check e then
        let r := retryAux check f (attempt + 1) remaining
        (r.1, r.2 + 1)
      else
        (Attempt.exc e, 1)

/-- `retry(exceptions_to_check, wait, retries)` applied to `f`: run the loop
from attempt `0` with `retries` retries remaining (`retries + 1` attempts in
total available).  Waiting (`time.sleep`) and console logging are
observability-only and not modelled. -/
def retryRun (check : ε → Bool) (retries : Nat) (f : Nat → Attempt ε α) :
    Attempt ε α × Nat :=
  retryAux check f 0 retries

/-! ## Data model of the listener -/

/-- `self.current_scope`: initialised to `[]` in `__init__`, then assigned
the strings `"SUITE"` or `"TEST"` by the hooks. -/
inductive Scope where
  | initial
  | suite
  | test
deriving DecidableEq, Repr

/-- The mutable instance state of the listener that the hooks read and
write (`__init__`, lines 42-48).  `_log_nested_keywords` and
`_test_level_keyword_fail` are set in `__init__` and never read by any
hook; they are carried for fidelity.  `rp_launch_id` models
`self.robot_service.rp.launch_id`. -/
structure ListenerState where
  top_level_kw_name : Option String := none
  current_scope : Scope := Scope.initial
  launch_id : Option String := none
  suite_setup_failed : Bool := false
  log_nested_keywords : Bool := true
  test_level_keyword_fail : Bool := false
  rp_launch_id : Option String := none
deriving DecidableEq, Repr

/-- External configuration read by the hooks: the `${PABOTLIBURI}` Robot
variable (for the `pabot_used` property), the launch documentation and name
from `robot_variables`, and the launch id the remote service returns from
`start_launch`. -/
structure Config where
  pabotlib_uri : Option String := none
  launch_doc : String := ""
  launch_name : String := ""
  new_launch_id : String := ""
deriving DecidableEq, Repr

/-- Python truthiness of an optional string variable value (`None` and the
empty string are falsy). -/
def truthy : Option String → Bool
  | none => false
  | some s => s ≠ ""

/-- The `pabot_used` property: reads `${PABOTLIBURI}` (cached; caching does
not change the truth value used by `start_suite`). -/
def pabot_used (cfg : Config) : Bool :=
  truthy cfg.pabotlib_uri

/-- One remote call issued by a hook, in issue order.  These are the
external-collaborator operations of `RobotService`. -/
inductive Call where
  | initService
  | startLaunch (launch_name : String) (doc : String)
  | finishLaunch
  | startSuite (longname : String)
  | finishSuite (longname : String)
  | startTest (name : String)
  | finishTest (name : String)
  | startKeyword (name : String)
  | finishKeyword (name : String)
  | log (message : String) (level : String)
  | terminateService
deriving DecidableEq, Repr

/-- Suite attribute dictionary keys used by the hooks. -/
structure SuiteAttrs where
  id : String
  longname : String := ""
  tests : List String := []
  doc : String := ""
deriving DecidableEq, Repr

/-- Test attribute dictionary keys used by the hooks (`attributes.get("message")`). -/
structure TestAttrs where
  message : Option String := none
deriving DecidableEq, Repr

/-- Keyword attribute dictionary keys used by the hooks.  The `status`
field models `kw.status` of the `Keyword` object built from the attributes.
Modelled from the spec: the module `reportportal_listener.model` defining
`Keyword` is not in the sources; per the spec a keyword's status is "that
keyword's own status" carried in its attributes. -/
structure KwAttrs where
  type : String
  args : List String := []
  assign : List String := []
  status : String := ""
deriving DecidableEq, Repr

/-- A message dictionary passed to `log_message`: `level` and `html` may be
absent (`message.get(..., 'no')`). -/
structure LogDict where
  level : Option String := none
  message : String
  html : Option String := none
deriving DecidableEq, Repr

/-- Python substring test `x in s` on explicit character lists. -/
def listContains (x : List Char) : List Char → Bool
  | [] => x.isEmpty
  | c :: rest => x.isPrefixOf (c :: rest) || listContains x rest

/-- Python substring test `sub in s` for strings. -/
def strContains (sub s : String) : Bool :=
  listContains sub.data s.data

/-- Python `str.split(sep)` for a one-character separator, on explicit
character lists: splitting an empty string gives one empty part, and each
separator occurrence starts a new part. -/
def splitOnChar (sep : Char) : List Char → List (List Char)
  | [] => [[]]
  | c :: rest =>
    match splitOnChar sep rest with
    | [] => [[c]]
    | h :: t => if c = sep then [] :: h :: t else (c :: h) :: t

/-- Python `name.split(".")[-1]`: the last dot-separated segment. -/
def lastDotSegment (name : String) : String :=
  String.mk ((splitOnChar '.' name.data).getLastD name.data)

/-! ## The hooks (`__init__.py`) -/

/-- `FIRST_SUITE_ID` (line 18). -/
def FIRST_SUITE_ID : String := "s1"

/-- The `black_list` of benign failure substrings in `log_message`
(lines 69-71).  `\x27` is an ASCII apostrophe and `\x22` would be a quote;
the middle entry is the literal string
`'"running"=="failed" or "running"=="success"'` including the outer
apostrophes. -/
def black_list : List String :=
  ["check_completed",
   "\x27\"running\"==\"failed\" or \"running\"==\"success\"\x27",
   "Connection with ID default does not exist"]

/-- `log_message` (lines 61-88).  Only a FAIL-level message whose text
contains no black-listed substring reaches `RobotService.log`, reformatted
as a markdown failure block; every other message produces no remote call
(the `RobotService.log` call is inside the `if` body).  The screenshot
attachment branch performs file I/O on the host and does not change which
log call is made nor its message text, so the attachment payload is not
modelled. -/
def log_message (m : LogDict) : List Call :=
  if m.level.getD "no" = "FAIL" &&
      !(black_list.any (fun x => strContains x m.message)) then
    [Call.log ("!!!MARKDOWN_MODE!!! **[FAIL]**\n```\n" ++ m.message ++ "\n```")
      "FAIL"]
  else
    []

/-- The message of the `Exception` raised by `start_suite` when pabot is
used without a supplied launch id (lines 119-120). -/
def pabot_error_message : String :=
  "Pabot used but launch_id is not provided. Please, correctly initialize listener with launch_id argument."

/-- `start_suite` (lines 98-130).  On the first suite (`id == "s1"`) the
service is initialised; then either the supplied launch id is adopted, or —
with pabot in use and no launch id — an `Exception` is raised (modelled as
`Except.error` carrying the calls already issued), or a launch is created
automatically with the run-level documentation.  Finally, if the suite's
`tests` attribute is non-empty, the suite is started remotely. -/
def start_suite (cfg : Config) (st : ListenerState) (_name : String)
    (attrs : SuiteAttrs) : Except (String × List Call) (ListenerState × List Call) :=
  let st := { st with current_scope := Scope.suite }
  if attrs.id = FIRST_SUITE_ID then
    match st.launch_id with
    | some lid =>
      let st := { st with rp_launch_id := some lid }
      Except.ok (st, [Call.initService] ++
        (if attrs.tests ≠ [] then [Call.startSuite attrs.longname] else []))
    | none =>
      if pabot_used cfg then
        Except.error (pabot_error_message, [Call.initService])
      else
        let st := { st with rp_launch_id := some cfg.new_launch_id }
        Except.ok (st, [Call.initService,
          Call.startLaunch cfg.launch_name cfg.launch_doc] ++
          (if attrs.tests ≠ [] then [Call.startSuite attrs.longname] else []))
  else
    Except.ok (st,
      if attrs.tests ≠ [] then [Call.startSuite attrs.longname] else [])

/-- `end_suite` (lines 132-155).  If the suite's `tests` attribute is
non-empty the suite is finished remotely; on the first suite the service is
terminated, the launch is finished when it was created automatically
(`self._launch_id is None`), and the service is terminated once more. -/
def end_suite (st : ListenerState) (_name : String) (attrs : SuiteAttrs) :
    ListenerState × List Call :=
  let st := { st with current_scope := Scope.suite }
  (st,
    (if attrs.tests ≠ [] then [Call.finishSuite attrs.longname] else []) ++
    (if attrs.id = FIRST_SUITE_ID then
      [Call.terminateService] ++
      (if st.launch_id = none then [Call.finishLaunch] else []) ++
      [Call.terminateService]
    else []))

/-- `start_test` (lines 157-175).  The pretty-printed test name comes from
the `Test` model object of the missing `reportportal_listener.model` module;
it is approximated here by the raw test name (no claim depends on its exact
text). -/
def start_test (st : ListenerState) (name : String) (_attrs : TestAttrs) :
    ListenerState × List Call :=
  let st := { st with current_scope := Scope.test }
  (st, [Call.startTest name,
        Call.log ("!!!MARKDOWN_MODE!!!## [Test-case] " ++ name) "INFO"])

/-- `end_test` (lines 177-197).  If the suite-setup-failed flag is set, a
FAIL message — the test's own `message` attribute when present, else
`"[ERROR] Suite Setup failed!"` — is routed through `log_message` before
the remote test finish. -/
def end_test (st : ListenerState) (name : String) (attrs : TestAttrs) :
    ListenerState × List Call :=
  let st := { st with current_scope := Scope.suite }
  ((st),
    (if st.suite_setup_failed then
      log_message { level := some "FAIL",
                    message := attrs.message.getD "[ERROR] Suite Setup failed!" }
    else []) ++ [Call.finishTest name])

/-- The guard of the suite-scoped branch of `start_keyword`/`end_keyword`:
`attributes['type'] in ['Setup', 'Teardown'] and self.current_scope == 'SUITE'`. -/
def suite_scoped (st : ListenerState) (attrs : KwAttrs) : Bool :=
  (attrs.type = "Setup" || attrs.type = "Teardown") &&
    st.current_scope = Scope.suite

/-- The `black_list` of noise keyword-name substrings in `start_keyword`
(line 218): `["${INDEX} = ", "BuiltIn.Log"]` (`\x7b`/`\x7d` are the literal
braces). -/
def kw_black_list : List String :=
  ["$\x7bINDEX\x7d = ", "BuiltIn.Log"]

/-- `start_keyword` (lines 199-235).  A suite-scoped Setup/Teardown resets
the suite-setup-failed flag and starts a remote keyword.  Otherwise, when no
top-level keyword is set, the marker takes this keyword's name and — unless
the name contains a black-listed substring — one INFO log is emitted with
the display type, the leaf name (last dot-separated segment), an
`[Input data]` clause from `args` when non-empty and an
`[Expected result]` clause from `assign` when non-empty. -/
def start_keyword (st : ListenerState) (name : String) (attrs : KwAttrs) :
    ListenerState × List Call :=
  if suite_scoped st attrs then
    ({ st with suite_setup_failed := false }, [Call.startKeyword name])
  else if st.top_level_kw_name = none then
    let st := { st with top_level_kw_name := some name }
    if kw_black_list.any (fun x => strContains x name) then
      (st, [])
    else
      let disp := if attrs.type = "Setup" || attrs.type = "Teardown" then
          "Test " ++ attrs.type else "Step"
      let output := if attrs.assign ≠ [] then
          " [Expected result] Get output " ++ String.intercalate ", " attrs.assign
        else ""
      let input := if attrs.args ≠ [] then
          " [Input data] " ++ String.intercalate ", " attrs.args else ""
      let leaf := if strContains "." name then lastDotSegment name else name
      (st, [Call.log ("!!!MARKDOWN_MODE!!!**[" ++ disp ++ "]** " ++ leaf ++
        input ++ output) "INFO"])
  else
    (st, [])

/-- `end_keyword` (lines 237-257).  A suite-scoped Setup/Teardown sets the
suite-setup-failed flag when its own status is FAIL and finishes its remote
keyword; otherwise the top-level marker is cleared exactly when it equals
the ending keyword's name. -/
def end_keyword (st : ListenerState) (name : String) (attrs : KwAttrs) :
    ListenerState × List Call :=
  if suite_scoped st attrs then
    (if attrs.status = "FAIL" then
        { st with suite_setup_failed := true, } else st,
      [Call.finishKeyword name])
  else if st.top_level_kw_name = some name then
    ({ st with top_level_kw_name := none }, [])
  else
    (st, [])

/-! ## Event sequences -/

/-- One listener callback from the host runner. -/
inductive Event where
  | suiteStart (name : String) (attrs : SuiteAttrs)
  | suiteEnd (name : String) (attrs : SuiteAttrs)
  | testStart (name : String) (attrs : TestAttrs)
  | testEnd (name : String) (attrs : TestAttrs)
  | kwStart (name : String) (attrs : KwAttrs)
  | kwEnd (name : String) (attrs : KwAttrs)
  | logMsg (m : LogDict)
deriving Repr

/-- Dispatch one callback to its hook. -/
def stepEvent (cfg : Config) (st : ListenerState) :
    Event → Except (String × List Call) (ListenerState × List Call)
  | Event.suiteStart n a => start_suite cfg st n a
  | Event.suiteEnd n a => Except.ok (end_suite st n a)
  | Event.testStart n a => Except.ok (start_test st n a)
  | Event.testEnd n a => Except.ok (end_test st n a)
  | Event.kwStart n a => Except.ok (start_keyword st n a)
  | Event.kwEnd n a => Except.ok (end_keyword st n a)
  | Event.logMsg m => Except.ok (st, log_message m)

/-- Run a callback sequence, collecting the remote calls in order; an
exception aborts the run, keeping the calls issued up to that point. -/
def runEvents (cfg : Config) (st : ListenerState) :
    List Event → Except (String × List Call) (ListenerState × List Call)
  | [] => Except.ok (st, [])
  | e :: rest =>
    match stepEvent cfg st e with
    | Except.error err => Except.error err
    | Except.ok (st1, cs) =>
      match runEvents cfg st1 rest with
      | Except.error (msg, cs2) => Except.error (msg, cs ++ cs2)
      | Except.ok (st2, cs2) => Except.ok (st2, cs ++ cs2)

/-- A well-nested forest of suites: `nil`, or a first suite with its
attribute dictionary, the forest of its child suites, and the forest of its
later siblings. -/
inductive SuiteForest where
  | nil
  | cons (attrs : SuiteAttrs) (children : SuiteForest) (rest : SuiteForest)

/-- The callback sequence of a well-nested suite forest: each suite
produces its start callback, its children's callbacks, and its end
callback with the same attribute dictionary. -/
def suiteForestTrace : SuiteForest → List Event
  | SuiteForest.nil => []
  | SuiteForest.cons a c r =>
    Event.suiteStart a.longname a :: suiteForestTrace c ++
      [Event.suiteEnd a.longname a] ++ suiteForestTrace r

/-- The number of suites in a forest whose `tests` attribute is non-empty. -/
def openableCount : SuiteForest → Nat
  | SuiteForest.nil => 0
  | SuiteForest.cons a c r =>
    (if a.tests ≠ [] then 1 else 0) + openableCount c + openableCount r

/-- Recogniser for remote suite-open calls. -/
def isStartSuiteCall : Call → Bool
  | Call.startSuite _ => true
  | _ => false

/-- Recogniser for remote suite-close calls. -/
def isFinishSuiteCall : Call → Bool
  | Call.finishSuite _ => true
  | _ => false

/-- Recogniser for remote launch-create calls. -/
def isStartLaunchCall : Call → Bool
  | Call.startLaunch _ _ => true
  | _ => false

/-- Recogniser for remote launch-finish calls. -/
def isFinishLaunchCall : Call → Bool
  | Call.finishLaunch => true
  | _ => false

/-- Recogniser for service-termination calls. -/
def isTerminateCall : Call → Bool
  | Call.terminateService => true
  | _ => false

/-- Recogniser for remote log submissions. -/
def isLogCall : Call → Bool
  | Call.log _ _ => true
  | _ => false

/-- A keyword callback (start or end) as seen inside one test. -/
inductive KwEvent where
  | start (name : String) (attrs : KwAttrs)
  | stop (name : String) (attrs : KwAttrs)

/-- State transition of one keyword callback (the calls are not needed for
the marker invariant). -/
def kwStep (st : ListenerState) : KwEvent → ListenerState
  | KwEvent.start n a => (start_keyword st n a).1
  | KwEvent.stop n a => (end_keyword st n a).1

/-- Run a sequence of keyword callbacks through the listener state. -/
def runKw (st : ListenerState) (evs : List KwEvent) : ListenerState :=
  evs.foldl kwStep st

/-- A well-nested forest of keyword executions inside one test. -/
inductive KwForest where
  | nil
  | cons (name : String) (attrs : KwAttrs) (children : KwForest) (rest : KwForest)

/-- The callback sequence of a well-nested keyword forest: each keyword
produces its start callback, its children's callbacks, and its end
callback. -/
def kwForestTrace : KwForest → List KwEvent
  | KwForest.nil => []
  | KwForest.cons n a c r =>
    KwEvent.start n a :: kwForestTrace c ++ [KwEvent.stop n a] ++ kwForestTrace r

/-! ## Lemmas about the retry loop -/

/-- If every attempt raises a caught exception, the loop performs one
invocation per unit of remaining budget plus the final one, and ends with
the last exception. -/
theorem retryAux_all_fail {ε α : Type} (check : ε → Bool)
    (f : Nat → Attempt ε α) (e : Nat → ε)
    (hf : ∀ i, f i = Attempt.exc (e i)) (hc : ∀ i, check (e i) = true) :
    ∀ rem attempt,
      retryAux check f attempt rem = (Attempt.exc (e (attempt + rem)), rem + 1) := by
  intro rem
  induction rem with
  | zero =>
    intro attempt
    simp [retryAux, hf attempt]
  | succ n ih =>
    intro attempt
    rw [show attempt + (n + 1) = attempt + 1 + n by omega]
    simp only [retryAux, hf attempt, hc attempt, if_true, ih (attempt + 1)]

/-- If the first `j` attempts raise caught exceptions and attempt `j`
returns normally, within budget, the loop returns that value after `j + 1`
invocations. -/
theorem retryAux_ok {ε α : Type} (check : ε → Bool)
    (f : Nat → Attempt ε α) (a : α) :
    ∀ j rem attempt, j ≤ rem →
      (∀ i, i < j → ∃ e, f (attempt + i) = Attempt.exc e ∧ check e = true) →
      f (attempt + j) = Attempt.ok a →
      retryAux check f attempt rem = (Attempt.ok a, j + 1) := by
  intro j
  induction j with
  | zero =>
    intro rem attempt _ _ hok
    have hok' : f attempt = Attempt.ok a := by simpa using hok
    cases rem <;> simp [retryAux, hok']
  | succ n ih =>
    intro rem attempt hle hfail hok
    obtain ⟨rem', rfl⟩ : ∃ r, rem = r + 1 := ⟨rem - 1, by omega⟩
    obtain ⟨e0, he0, hc0⟩ := hfail 0 (by omega)
    have he0' : f attempt = Attempt.exc e0 := by simpa using he0
    have ihx := ih rem' (attempt + 1) (by omega)
      (fun i hi => by
        obtain ⟨e, he, hc⟩ := hfail (i + 1) (by omega)
        exact ⟨e, by rw [show attempt + 1 + i = attempt + (i + 1) by omega]; exact he, hc⟩)
      (by rw [show attempt + 1 + n = attempt + (n + 1) by omega]; exact hok)
    simp [retryAux, he0', hc0, ihx]

/-- An exception whose class is not caught propagates from the first
invocation that raises it, with no retry. -/
theorem retryAux_unchecked {ε α : Type} (check : ε → Bool)
    (f : Nat → Attempt ε α) (e : ε) (attempt rem : Nat)
    (hf : f attempt = Attempt.exc e) (hc : check e = false) :
    retryAux check f attempt rem = (Attempt.exc e, 1) := by
  cases rem <;> simp [retryAux, hf, hc]

/-! ## Claims -/

/-- Claim C1: a function wrapped by `retry` with `retries = 3` is invoked
exactly 4 times and the last exception is re-raised when every invocation
raises an exception caught by `exceptions_to_check`; it is invoked exactly
once with the exception propagating when the raised exception is not
caught; and a successful invocation's result is returned. -/
theorem C1_retry_behavior {ε α : Type} (check : ε → Bool) :
    (∀ (f : Nat → Attempt ε α) (e : Nat → ε),
      (∀ i, f i = Attempt.exc (e i)) → (∀ i, check (e i) = true) →
      retryRun check 3 f = (Attempt.exc (e 3), 4)) ∧
    (∀ (f : Nat → Attempt ε α) (e : ε),
      f 0 = Attempt.exc e → check e = false →
      retryRun check 3 f = (Attempt.exc e, 1)) ∧
    (∀ (f : Nat → Attempt ε α) (a : α) (k : Nat), k ≤ 3 →
      (∀ i, i < k → ∃ e, f i = Attempt.exc e ∧ check e = true) →
      f k = Attempt.ok a →
      retryRun check 3 f = (Attempt.ok a, k + 1)) := by
  refine ⟨fun f e hf hc => ?_, fun f e hf hc => ?_, fun f a k hk hfail hok => ?_⟩
  · simpa using retryAux_all_fail check f e hf hc 3 0
  · simpa [retryRun] using retryAux_unchecked check f e 0 3 hf hc
  · exact retryAux_ok check f a k 3 0 hk (by simpa using hfail) (by simpa using hok)

/-- Witness for C1 at concrete operations: one that always raises a caught
exception, one that raises an uncaught one, and one that succeeds on its
third attempt. -/
theorem C1_retry_behavior_witness :
    retryRun (fun _ : Nat => true) 3
      (fun i => (Attempt.exc i : Attempt Nat Nat)) = (Attempt.exc 3, 4) ∧
    retryRun (fun _ : Nat => false) 3
      (fun _ => (Attempt.exc 7 : Attempt Nat Nat)) = (Attempt.exc 7, 1) ∧
    retryRun (fun _ : Nat => true) 3
      (fun i => if i < 2 then (Attempt.exc i : Attempt Nat Nat) else Attempt.ok 42) =
      (Attempt.ok 42, 3) :=
  ⟨(C1_retry_behavior (fun _ => true)).1 _ (fun i => i) (fun _ => rfl) (fun _ => rfl),
   (C1_retry_behavior (fun _ => false)).2.1 _ 7 rfl rfl,
   (C1_retry_behavior (fun _ => true)).2.2 _ 42 2 (by omega)
     (fun i hi => ⟨i, by simp [hi], rfl⟩) (by simp)⟩

/-- Counterexample to claim C2: the retry decorator on `end_test` does not
list `HTTPError` (and neither `ConnectionError`, `ResponseError` nor
`UnicodeEncodeError` is a superclass of it), so an HTTP-protocol failure in
`end_test` is not caught: the wrapped hook is invoked once and the
exception propagates. -/
theorem C2_end_test_misses_httpError :
    catches end_test_exceptions ExcClass.httpError = false ∧
    retryRun (catches end_test_exceptions) 3
      (fun _ => (Attempt.exc ExcClass.httpError : Attempt ExcClass Unit)) =
      (Attempt.exc ExcClass.httpError, 1) := by decide

/-- Claim C2 as amended: every hook's retry set catches
connection-establishment failure (`ConnectionError`), malformed-response
failure (`ResponseError`) and text-encoding failure (`UnicodeEncodeError`);
every hook except `end_test` also catches HTTP-protocol failure
(`HTTPError`) and `NewConnectionError`; `end_test`'s set omits `HTTPError`
and hence also `NewConnectionError`. -/
theorem C2_hook_retry_sets :
    ([start_suite_exceptions, end_suite_exceptions, start_test_exceptions,
      end_test_exceptions, start_keyword_exceptions, end_keyword_exceptions].all
        (fun s => catches s ExcClass.connectionError &&
          catches s ExcClass.responseError &&
          catches s ExcClass.unicodeEncodeError)) = true ∧
    ([start_suite_exceptions, end_suite_exceptions, start_test_exceptions,
      start_keyword_exceptions, end_keyword_exceptions].all
        (fun s => catches s ExcClass.httpError &&
          catches s ExcClass.newConnectionError)) = true ∧
    catches end_test_exceptions ExcClass.httpError = false ∧
    catches end_test_exceptions ExcClass.newConnectionError = false := by decide

/-! ## Lemmas about the event runner -/

/-- Successful runs compose over concatenation of callback sequences. -/
theorem runEvents_append_ok (cfg : Config) {st st1 st2 : ListenerState}
    {a b : List Event} {cs1 cs2 : List Call}
    (h1 : runEvents cfg st a = Except.ok (st1, cs1))
    (h2 : runEvents cfg st1 b = Except.ok (st2, cs2)) :
    runEvents cfg st (a ++ b) = Except.ok (st2, cs1 ++ cs2) := by
  induction a generalizing st cs1 with
  | nil =>
    simp only [runEvents, Except.ok.injEq, Prod.mk.injEq] at h1
    obtain ⟨rfl, rfl⟩ := h1
    simpa using h2
  | cons e rest ih =>
    rw [List.cons_append]
    rw [runEvents] at h1 ⊢
    cases hs : stepEvent cfg st e with
    | error err =>
      rw [hs] at h1
      simp at h1
    | ok r =>
      obtain ⟨st', cs'⟩ := r
      rw [hs] at h1
      have h1' : (match runEvents cfg st' rest with
          | Except.error (msg, csx) => Except.error (msg, cs' ++ csx)
          | Except.ok (stx, csx) => Except.ok (stx, cs' ++ csx)) =
          Except.ok (st1, cs1) := h1
      cases hr : runEvents cfg st' rest with
      | error err =>
        obtain ⟨msg, csx⟩ := err
        rw [hr] at h1'
        simp at h1'
      | ok r2 =>
        obtain ⟨st'', cs''⟩ := r2
        rw [hr] at h1'
        simp only [Except.ok.injEq, Prod.mk.injEq] at h1'
        obtain ⟨rfl, rfl⟩ := h1'
        show (match runEvents cfg st' (rest ++ b) with
          | Except.error (msg, csx) => Except.error (msg, cs' ++ csx)
          | Except.ok (stx, csx) => Except.ok (stx, cs' ++ csx)) =
          Except.ok (st2, (cs' ++ cs'') ++ cs2)
        rw [ih hr]
        simp [List.append_assoc]

/-- One successful step followed by a successful run of the rest. -/
theorem runEvents_cons_ok (cfg : Config) {st st1 st2 : ListenerState} {e : Event}
    {rest : List Event} {cs1 cs2 : List Call}
    (hs : stepEvent cfg st e = Except.ok (st1, cs1))
    (hr : runEvents cfg st1 rest = Except.ok (st2, cs2)) :
    runEvents cfg st (e :: rest) = Except.ok (st2, cs1 ++ cs2) := by
  rw [runEvents, hs]
  show (match runEvents cfg st1 rest with
    | Except.error (msg, csy) => Except.error (msg, cs1 ++ csy)
    | Except.ok (sty, csy) => Except.ok (sty, cs1 ++ csy)) = _
  rw [hr]

/-- With a supplied launch id, `start_suite` always succeeds; it keeps the
supplied id, opens the suite exactly when the `tests` attribute is
non-empty, and closes no suite. -/
theorem start_suite_ok_counts (cfg : Config) (st : ListenerState) (n : String)
    (a : SuiteAttrs) (l : String) (h : st.launch_id = some l) :
    ∃ st2 cs, start_suite cfg st n a = Except.ok (st2, cs) ∧
      st2.launch_id = some l ∧
      cs.countP isStartSuiteCall = (if a.tests = [] then 0 else 1) ∧
      cs.countP isFinishSuiteCall = 0 := by
  by_cases hid : a.id = FIRST_SUITE_ID
  · refine ⟨{ st with current_scope := Scope.suite, rp_launch_id := some l },
      [Call.initService] ++
        (if a.tests ≠ [] then [Call.startSuite a.longname] else []),
      ?_, by simpa using h, ?_, ?_⟩
    · simp [start_suite, hid, h]
    · by_cases ht : a.tests = [] <;>
        simp [ht, isStartSuiteCall, List.countP_cons, List.countP_nil]
    · by_cases ht : a.tests = [] <;>
        simp [ht, isFinishSuiteCall, List.countP_cons, List.countP_nil]
  · refine ⟨{ st with current_scope := Scope.suite },
      (if a.tests ≠ [] then [Call.startSuite a.longname] else []),
      ?_, by simpa using h, ?_, ?_⟩
    · simp [start_suite, hid]
    · by_cases ht : a.tests = [] <;>
        simp [ht, isStartSuiteCall, List.countP_cons, List.countP_nil]
    · by_cases ht : a.tests = [] <;>
        simp [ht, isFinishSuiteCall, List.countP_cons, List.countP_nil]

/-- `end_suite` closes the suite exactly when the `tests` attribute is
non-empty, opens no suite, and does not touch the supplied launch id. -/
theorem end_suite_counts (st : ListenerState) (n : String) (a : SuiteAttrs) :
    ((end_suite st n a).2).countP isFinishSuiteCall = (if a.tests = [] then 0 else 1) ∧
    ((end_suite st n a).2).countP isStartSuiteCall = 0 ∧
    (end_suite st n a).1.launch_id = st.launch_id := by
  by_cases hid : a.id = FIRST_SUITE_ID <;> by_cases ht : a.tests = [] <;>
    by_cases hl : st.launch_id = none <;>
    simp [end_suite, hid, ht, hl, isStartSuiteCall, isFinishSuiteCall,
      List.countP_cons, List.countP_nil, List.countP_append]

/-- Over the callback sequence of any well-nested suite forest, run with a
supplied launch id, the listener issues one remote suite open and one
remote suite close per suite whose `tests` attribute is non-empty. -/
theorem suiteForest_run (cfg : Config) (l : String) :
    ∀ (F : SuiteForest) (st : ListenerState), st.launch_id = some l →
      ∃ st2 cs, runEvents cfg st (suiteForestTrace F) = Except.ok (st2, cs) ∧
        st2.launch_id = some l ∧
        cs.countP isStartSuiteCall = openableCount F ∧
        cs.countP isFinishSuiteCall = openableCount F := by
  intro F
  induction F with
  | nil =>
    intro st h
    exact ⟨st, [], by simp [runEvents, suiteForestTrace], h,
      by simp [openableCount], by simp [openableCount]⟩
  | cons a c r ihc ihr =>
    intro st h
    obtain ⟨st1, cs1, hs1, hl1, hsc1, hfc1⟩ :=
      start_suite_ok_counts cfg st a.longname a l h
    obtain ⟨st2, cs2, hr2, hl2, hsc2, hfc2⟩ := ihc st1 hl1
    obtain ⟨hefc, hesc, hel⟩ := end_suite_counts st2 a.longname a
    have hmid : runEvents cfg st2 [Event.suiteEnd a.longname a] =
        Except.ok ((end_suite st2 a.longname a).1, (end_suite st2 a.longname a).2) := by
      simp [runEvents, stepEvent]
    have hl3 : (end_suite st2 a.longname a).1.launch_id = some l := by
      rw [hel, hl2]
    obtain ⟨st4, cs4, hr4, hl4, hsc4, hfc4⟩ := ihr (end_suite st2 a.longname a).1 hl3
    have hcr := runEvents_append_ok cfg hr2 hmid
    have hall := runEvents_append_ok cfg hcr hr4
    refine ⟨st4, cs1 ++ ((cs2 ++ (end_suite st2 a.longname a).2) ++ cs4), ?_, hl4, ?_, ?_⟩
    · exact runEvents_cons_ok cfg hs1 hall
    · simp only [List.countP_append, openableCount, hsc1, hsc2, hesc, hsc4]
      by_cases ht : a.tests = [] <;> simp [ht] <;> omega
    · simp only [List.countP_append, openableCount, hfc1, hfc2, hefc, hfc4]
      by_cases ht : a.tests = [] <;> simp [ht] <;> omega

/-- Claim C3: `start_suite` issues a remote suite-open call if and only if
the suite's `tests` attribute is non-empty, `end_suite` issues a remote
suite-close call if and only if the same attribute is non-empty, and over
the callback sequence of any well-nested suite forest (run with a supplied
launch id) the numbers of opens and closes both equal the number of suites
with a non-empty `tests` attribute, hence match one-to-one. -/
theorem C3_suite_open_close_matched :
    (∀ (cfg : Config) (st : ListenerState) (n : String) (a : SuiteAttrs)
        (st2 : ListenerState) (cs : List Call),
      start_suite cfg st n a = Except.ok (st2, cs) →
      cs.countP isStartSuiteCall = (if a.tests = [] then 0 else 1) ∧
      cs.countP isFinishSuiteCall = 0) ∧
    (∀ (st : ListenerState) (n : String) (a : SuiteAttrs),
      ((end_suite st n a).2).countP isFinishSuiteCall =
        (if a.tests = [] then 0 else 1) ∧
      ((end_suite st n a).2).countP isStartSuiteCall = 0) ∧
    (∀ (cfg : Config) (l : String) (F : SuiteForest) (st : ListenerState),
      st.launch_id = some l →
      ∃ st2 cs, runEvents cfg st (suiteForestTrace F) = Except.ok (st2, cs) ∧
        cs.countP isStartSuiteCall = openableCount F ∧
        cs.countP isFinishSuiteCall = openableCount F) := by
  refine ⟨fun cfg st n a st2 cs h => ?_,
    fun st n a => ⟨(end_suite_counts st n a).1, (end_suite_counts st n a).2.1⟩,
    fun cfg l F st h => ?_⟩
  · by_cases hid : a.id = FIRST_SUITE_ID <;> by_cases ht : a.tests = [] <;>
      cases hl : st.launch_id <;> by_cases hp : pabot_used cfg = true <;>
      simp [start_suite, hid, ht, hl, hp] at h <;>
      obtain ⟨-, rfl⟩ := h <;>
      simp [ht, isStartSuiteCall, isFinishSuiteCall, List.countP_cons, List.countP_nil]
  · obtain ⟨st2, cs, h1, _, h3, h4⟩ := suiteForest_run cfg l F st h
    exact ⟨st2, cs, h1, h3, h4⟩

/-- Witness for C3: the scenario from the spec — an outermost suite
`id = "s1"` with no directly-contained tests and one child suite with a
test — issues exactly one open and one close. -/
theorem C3_suite_open_close_matched_witness :
    ∃ st2 cs,
      runEvents {} { launch_id := some "L" }
        (suiteForestTrace (SuiteForest.cons { id := "s1", longname := "Outer" }
          (SuiteForest.cons { id := "s1-s1", longname := "Outer.Inner", tests := ["T1"] }
            SuiteForest.nil SuiteForest.nil)
          SuiteForest.nil)) = Except.ok (st2, cs) ∧
      cs.countP isStartSuiteCall = 1 ∧
      cs.countP isFinishSuiteCall = 1 :=
  C3_suite_open_close_matched.2.2 {} "L"
    (SuiteForest.cons { id := "s1", longname := "Outer" }
      (SuiteForest.cons { id := "s1-s1", longname := "Outer.Inner", tests := ["T1"] }
        SuiteForest.nil SuiteForest.nil)
      SuiteForest.nil)
    { launch_id := some "L" } rfl

/-! ## Projection lemmas for the keyword hooks -/

/-- `start_keyword` never changes the current scope. -/
theorem start_keyword_scope (st : ListenerState) (n : String) (a : KwAttrs) :
    (start_keyword st n a).1.current_scope = st.current_scope := by
  by_cases hs : suite_scoped st a <;>
    by_cases hm : st.top_level_kw_name = none <;>
    by_cases hb : kw_black_list.any (fun x => strContains x n) <;>
    simp [start_keyword, hs, hm, hb]

/-- The suite-setup-failed flag after `start_keyword`: reset exactly on a
suite-scoped Setup/Teardown, untouched otherwise. -/
theorem start_keyword_flag (st : ListenerState) (n : String) (a : KwAttrs) :
    (start_keyword st n a).1.suite_setup_failed =
      (if suite_scoped st a then false else st.suite_setup_failed) := by
  by_cases hs : suite_scoped st a <;>
    by_cases hm : st.top_level_kw_name = none <;>
    by_cases hb : kw_black_list.any (fun x => strContains x n) <;>
    simp [start_keyword, hs, hm, hb]

/-- The top-level-keyword marker after `start_keyword`: set to this
keyword's name exactly when the keyword is not a suite-scoped
Setup/Teardown and the marker is unset. -/
theorem start_keyword_marker (st : ListenerState) (n : String) (a : KwAttrs) :
    (start_keyword st n a).1.top_level_kw_name =
      (if suite_scoped st a then st.top_level_kw_name
       else if st.top_level_kw_name = none then some n
       else st.top_level_kw_name) := by
  by_cases hs : suite_scoped st a <;>
    by_cases hm : st.top_level_kw_name = none <;>
    by_cases hb : kw_black_list.any (fun x => strContains x n) <;>
    simp [start_keyword, hs, hm, hb]

/-- `end_keyword` never changes the current scope. -/
theorem end_keyword_scope (st : ListenerState) (n : String) (a : KwAttrs) :
    (end_keyword st n a).1.current_scope = st.current_scope := by
  by_cases hs : suite_scoped st a <;>
    by_cases hf : a.status = "FAIL" <;>
    by_cases hm : st.top_level_kw_name = some n <;>
    simp [end_keyword, hs, hf, hm]

/-- The suite-setup-failed flag after `end_keyword`: set (to true) exactly
on a suite-scoped Setup/Teardown whose own status is FAIL, untouched
otherwise. -/
theorem end_keyword_flag (st : ListenerState) (n : String) (a : KwAttrs) :
    (end_keyword st n a).1.suite_setup_failed =
      (if suite_scoped st a then
        (st.suite_setup_failed || (a.status == "FAIL"))
       else st.suite_setup_failed) := by
  by_cases hs : suite_scoped st a <;>
    by_cases hf : a.status = "FAIL" <;>
    by_cases hm : st.top_level_kw_name = some n <;>
    simp [end_keyword, hs, hf, hm, beq_iff_eq]

/-- The top-level-keyword marker after `end_keyword`: cleared exactly when
the keyword is not a suite-scoped Setup/Teardown and its name equals the
marker. -/
theorem end_keyword_marker (st : ListenerState) (n : String) (a : KwAttrs) :
    (end_keyword st n a).1.top_level_kw_name =
      (if suite_scoped st a then st.top_level_kw_name
       else if st.top_level_kw_name = some n then none
       else st.top_level_kw_name) := by
  by_cases hs : suite_scoped st a <;>
    by_cases hf : a.status = "FAIL" <;>
    by_cases hm : st.top_level_kw_name = some n <;>
    simp [end_keyword, hs, hf, hm]

/-- Inside a test, no keyword is a suite-scoped Setup/Teardown. -/
theorem suite_scoped_eq_false {st : ListenerState} (a : KwAttrs)
    (h : st.current_scope = Scope.test) : suite_scoped st a = false := by
  simp [suite_scoped, h]

/-- `kwStep` on a keyword-start callback. -/
theorem kwStep_start (st : ListenerState) (n : String) (a : KwAttrs) :
    kwStep st (KwEvent.start n a) = (start_keyword st n a).1 := rfl

/-- `kwStep` on a keyword-end callback. -/
theorem kwStep_stop (st : ListenerState) (n : String) (a : KwAttrs) :
    kwStep st (KwEvent.stop n a) = (end_keyword st n a).1 := rfl

/-- Over the callback sequence of a well-nested keyword forest executed
inside a test, the scope stays TEST and the top-level marker either keeps
its initial value or ends unset. -/
theorem kwRun_marker :
    ∀ (F : KwForest) (st : ListenerState), st.current_scope = Scope.test →
      (runKw st (kwForestTrace F)).current_scope = Scope.test ∧
        ((runKw st (kwForestTrace F)).top_level_kw_name = st.top_level_kw_name ∨
         (runKw st (kwForestTrace F)).top_level_kw_name = none) := by
  intro F
  induction F with
  | nil =>
    intro st h
    exact ⟨h, Or.inl rfl⟩
  | cons n a c r ihc ihr =>
    intro st h
    have hrun : runKw st (kwForestTrace (KwForest.cons n a c r)) =
        runKw ((end_keyword (runKw (start_keyword st n a).1 (kwForestTrace c))
          n a).1) (kwForestTrace r) := by
      simp [runKw, kwForestTrace, List.foldl_append, kwStep_start, kwStep_stop]
    have h1 : (start_keyword st n a).1.current_scope = Scope.test := by
      rw [start_keyword_scope]; exact h
    obtain ⟨h2, hm2⟩ := ihc (start_keyword st n a).1 h1
    have h3 : ((end_keyword (runKw (start_keyword st n a).1 (kwForestTrace c))
        n a).1).current_scope = Scope.test := by
      rw [end_keyword_scope]; exact h2
    have hm3 : ((end_keyword (runKw (start_keyword st n a).1 (kwForestTrace c))
        n a).1).top_level_kw_name =
        (if (runKw (start_keyword st n a).1 (kwForestTrace c)).top_level_kw_name
            = some n then none
         else (runKw (start_keyword st n a).1 (kwForestTrace c)).top_level_kw_name) := by
      rw [end_keyword_marker, suite_scoped_eq_false a h2]
      simp
    obtain ⟨h4, hm4⟩ := ihr _ h3
    rw [hrun]
    refine ⟨h4, ?_⟩
    rcases hm4 with hm4 | hm4
    · rw [hm4, hm3]
      have hm1 : (start_keyword st n a).1.top_level_kw_name =
          (if st.top_level_kw_name = none then some n
           else st.top_level_kw_name) := by
        rw [start_keyword_marker, suite_scoped_eq_false a h]
        simp
      by_cases hc2 : (runKw (start_keyword st n a).1
          (kwForestTrace c)).top_level_kw_name = some n
      · simp [hc2]
      · simp only [hc2, if_false]
        rcases hm2 with hm2 | hm2
        · rw [hm2, hm1]
          by_cases hmm : st.top_level_kw_name = none
          · exfalso
            apply hc2
            rw [hm2, hm1]
            simp [hmm]
          · simp [hmm]
        · right
          exact hm2
    · right
      exact hm4

/-- Claim C4: the suite-setup-failed flag is reset to false at the start of
every suite-scoped Setup/Teardown keyword, set to true at such a keyword's
end exactly when its own status is FAIL (otherwise left unchanged), not
modified by any other hook, and therefore equals `status == FAIL` right
after such a keyword's start/end pair. -/
theorem C4_suite_setup_flag :
    (∀ (st : ListenerState) (n : String) (a : KwAttrs),
      (start_keyword st n a).1.suite_setup_failed =
        (if suite_scoped st a then false else st.suite_setup_failed)) ∧
    (∀ (st : ListenerState) (n : String) (a : KwAttrs),
      (end_keyword st n a).1.suite_setup_failed =
        (if suite_scoped st a then
          (st.suite_setup_failed || (a.status == "FAIL"))
         else st.suite_setup_failed)) ∧
    (∀ (st : ListenerState) (n : String) (a : TestAttrs),
      (end_test st n a).1.suite_setup_failed = st.suite_setup_failed) ∧
    (∀ (st : ListenerState) (n : String) (a : TestAttrs),
      (start_test st n a).1.suite_setup_failed = st.suite_setup_failed) ∧
    (∀ (st : ListenerState) (n : String) (a : SuiteAttrs),
      (end_suite st n a).1.suite_setup_failed = st.suite_setup_failed) ∧
    (∀ (cfg : Config) (st st2 : ListenerState) (n : String) (a : SuiteAttrs)
        (cs : List Call),
      start_suite cfg st n a = Except.ok (st2, cs) →
      st2.suite_setup_failed = st.suite_setup_failed) ∧
    (∀ (st : ListenerState) (n : String) (a : KwAttrs),
      suite_scoped st a = true →
      (end_keyword (start_keyword st n a).1 n a).1.suite_setup_failed =
        (a.status == "FAIL")) := by
  refine ⟨start_keyword_flag, end_keyword_flag, fun st n a => rfl, fun st n a => rfl,
    fun st n a => rfl, fun cfg st st2 n a cs hok => ?_, fun st n a hs => ?_⟩
  · by_cases hid : a.id = FIRST_SUITE_ID <;>
      cases hl : st.launch_id <;>
      by_cases hp : pabot_used cfg = true <;>
      simp [start_suite, hid, hl, hp] at hok <;>
      obtain ⟨rfl, -⟩ := hok <;> rfl
  · have hsp : suite_scoped (start_keyword st n a).1 a = true := by
      have := start_keyword_scope st n a
      simp only [suite_scoped] at hs ⊢
      rw [this]
      exact hs
    rw [end_keyword_flag, hsp, start_keyword_flag, hs]
    simp

/-- Witness for C4: a suite-scoped Setup keyword ending with FAIL sets the
flag; a successful `start_suite` on a non-first suite leaves it alone. -/
theorem C4_suite_setup_flag_witness :
    (end_keyword (start_keyword { current_scope := Scope.suite } "K"
      { type := "Setup", status := "FAIL" }).1 "K"
      { type := "Setup", status := "FAIL" }).1.suite_setup_failed = true ∧
    ({ current_scope := Scope.suite } : ListenerState).suite_setup_failed =
      ({ } : ListenerState).suite_setup_failed :=
  ⟨C4_suite_setup_flag.2.2.2.2.2.2 { current_scope := Scope.suite } "K"
    { type := "Setup", status := "FAIL" } rfl,
   C4_suite_setup_flag.2.2.2.2.2.1 {} {} { current_scope := Scope.suite } "S"
    { id := "s2" } [] rfl⟩

/-- Claim C5: the top-level-keyword marker is set (from unset) only by a
non-suite-scoped keyword start, taking that keyword's name; it is cleared
exactly when a non-suite-scoped keyword whose name equals the marker ends;
suite-scoped Setup/Teardown keywords never touch it; as an `Option` it
names at most one keyword at a time, and after the callback sequence of any
well-nested keyword forest inside a test, started with the marker unset,
the marker is unset again. -/
theorem C5_top_level_marker :
    (∀ (st : ListenerState) (n : String) (a : KwAttrs),
      suite_scoped st a = false →
      (start_keyword st n a).1.top_level_kw_name =
        (if st.top_level_kw_name = none then some n
         else st.top_level_kw_name)) ∧
    (∀ (st : ListenerState) (n : String) (a : KwAttrs),
      suite_scoped st a = false →
      (end_keyword st n a).1.top_level_kw_name =
        (if st.top_level_kw_name = some n then none
         else st.top_level_kw_name)) ∧
    (∀ (st : ListenerState) (n : String) (a : KwAttrs),
      suite_scoped st a = true →
      (start_keyword st n a).1.top_level_kw_name = st.top_level_kw_name ∧
      (end_keyword st n a).1.top_level_kw_name = st.top_level_kw_name) ∧
    (∀ (F : KwForest) (st : ListenerState),
      st.current_scope = Scope.test → st.top_level_kw_name = none →
      (runKw st (kwForestTrace F)).top_level_kw_name = none) := by
  refine ⟨fun st n a hs => ?_, fun st n a hs => ?_, fun st n a hs => ?_,
    fun F st hsc hm => ?_⟩
  · rw [start_keyword_marker, hs]
    simp
  · rw [end_keyword_marker, hs]
    simp
  · rw [start_keyword_marker, end_keyword_marker, hs]
    simp
  · rcases (kwRun_marker F st hsc).2 with h | h
    · rw [h, hm]
    · exact h

/-- Witness for C5 at a concrete forest inside a test: a top-level keyword
with a nested same-named keyword and a nested sibling still leaves the
marker unset at the end. -/
theorem C5_top_level_marker_witness :
    (runKw { current_scope := Scope.test }
      (kwForestTrace (KwForest.cons "A" { type := "Keyword" }
        (KwForest.cons "A" { type := "Keyword" } KwForest.nil
          (KwForest.cons "B" { type := "Keyword" } KwForest.nil KwForest.nil))
        KwForest.nil))).top_level_kw_name = none :=
  C5_top_level_marker.2.2.2
    (KwForest.cons "A" { type := "Keyword" }
      (KwForest.cons "A" { type := "Keyword" } KwForest.nil
        (KwForest.cons "B" { type := "Keyword" } KwForest.nil KwForest.nil))
      KwForest.nil)
    { current_scope := Scope.test } rfl rfl

/-- Claim C6 evidence: `log_message` drops every message that is not
FAIL-level, and every FAIL-level message containing a black-listed benign
substring — no remote log call is made for them at all (the
`RobotService.log` call sits inside the `if` body), contradicting both the
claim and the hook's own docstring ("This method sends each test log
message to Report Portal").  A FAIL-level message with no black-listed
substring is submitted reformatted. -/
theorem C6_log_message_drops_nonfail :
    log_message { level := some "INFO", message := "hello" } = [] ∧
    log_message { level := some "FAIL", message := "Connection with ID default does not exist" } = [] ∧
    log_message { level := some "FAIL", message := "boom" } =
      [Call.log "!!!MARKDOWN_MODE!!! **[FAIL]**\n```\nboom\n```" "FAIL"] := by
  exact ⟨rfl, by decide, rfl⟩

/-- Counterexample to claim C7: with the suite-setup-failed flag set, the
synthetic message is routed through `log_message`, so a test message
containing a benign black-listed substring yields no synthetic log at all
(not exactly one); and with no test message, the submitted log's text is
the markdown-wrapped `"[ERROR] Suite Setup failed!"`, not the bare
`"Suite Setup failed!"`. -/
theorem C7_end_test_counterexample :
    (end_test { current_scope := Scope.test, suite_setup_failed := true } "T"
      { message := some "Connection with ID default does not exist" }).2 =
      [Call.finishTest "T"] ∧
    (end_test { current_scope := Scope.test, suite_setup_failed := true } "T"
      { message := none }).2 =
      [Call.log
        "!!!MARKDOWN_MODE!!! **[FAIL]**\n```\n[ERROR] Suite Setup failed!\n```"
        "FAIL",
       Call.finishTest "T"] := by
  exact ⟨by decide, rfl⟩

/-- Claim C7 as amended: when the flag is set, `end_test` builds a FAIL
message equal to the test's `message` attribute when present, else
`"[ERROR] Suite Setup failed!"`, and routes it through `log_message` before
the remote test close; when the text contains no black-listed substring,
exactly one reformatted FAIL log precedes the close, otherwise none; when
the flag is clear, no synthetic log is produced. -/
theorem C7_end_test_synthetic_log :
    ∀ (st : ListenerState) (n : String) (a : TestAttrs),
      (st.suite_setup_failed = true →
        (end_test st n a).2 =
          log_message { level := some "FAIL",
                        message := a.message.getD "[ERROR] Suite Setup failed!" } ++
          [Call.finishTest n] ∧
        (black_list.any (fun x =>
            strContains x (a.message.getD "[ERROR] Suite Setup failed!")) = false →
          (end_test st n a).2 =
            [Call.log ("!!!MARKDOWN_MODE!!! **[FAIL]**\n```\n" ++
              a.message.getD "[ERROR] Suite Setup failed!" ++ "\n```") "FAIL",
             Call.finishTest n])) ∧
      (st.suite_setup_failed = false →
        (end_test st n a).2 = [Call.finishTest n]) := by
  intro st n a
  refine ⟨fun hf => ⟨?_, fun hb => ?_⟩, fun hf => ?_⟩
  · simp [end_test, hf]
  · simp [end_test, hf, log_message, hb]
  · simp [end_test, hf]

/-- Witness for C7 (amended): a set flag with a non-black-listed message
submits exactly the reformatted FAIL log before the close; a clear flag
submits nothing. -/
theorem C7_end_test_synthetic_log_witness :
    (end_test { suite_setup_failed := true } "T" { message := some "boom" }).2 =
      [Call.log "!!!MARKDOWN_MODE!!! **[FAIL]**\n```\nboom\n```" "FAIL",
       Call.finishTest "T"] ∧
    (end_test { } "T" { message := none }).2 = [Call.finishTest "T"] :=
  ⟨((C7_end_test_synthetic_log { suite_setup_failed := true } "T"
      { message := some "boom" }).1 rfl).2 (by decide),
   (C7_end_test_synthetic_log { } "T" { message := none }).2 rfl⟩

/-- Claim C8: on the outermost suite with no supplied launch id and the
pabot signal present, `start_suite` raises immediately — after only the
service initialisation, with no launch creation and no suite open — with a
message naming the missing `launch_id`; the raised exception is a plain
`Exception`, which the retry decorator does not catch, so the hook is
invoked exactly once. -/
theorem C8_pabot_fail_fast :
    ∀ (cfg : Config) (st : ListenerState) (n : String) (a : SuiteAttrs),
      a.id = FIRST_SUITE_ID → st.launch_id = none → pabot_used cfg = true →
      start_suite cfg st n a =
        Except.error (pabot_error_message, [Call.initService]) ∧
      strContains "launch_id" pabot_error_message = true ∧
      List.countP isStartLaunchCall [Call.initService] = 0 ∧
      List.countP isStartSuiteCall [Call.initService] = 0 ∧
      catches start_suite_exceptions ExcClass.genericException = false ∧
      retryRun (catches start_suite_exceptions) 3
        (fun _ => (Attempt.exc ExcClass.genericException : Attempt ExcClass Unit)) =
        (Attempt.exc ExcClass.genericException, 1) := by
  intro cfg st n a hid hl hp
  refine ⟨?_, by decide, by decide, by decide, by decide, by decide⟩
  simp [start_suite, hid, hl, hp]

/-- Witness for C8: a concrete multi-process configuration without a
launch id fails fast on the first suite. -/
theorem C8_pabot_fail_fast_witness :
    start_suite { pabotlib_uri := some "http://127.0.0.1:8270" } { } "S"
      { id := "s1" } =
      Except.error (pabot_error_message, [Call.initService]) :=
  (C8_pabot_fail_fast { pabotlib_uri := some "http://127.0.0.1:8270" } { } "S"
    { id := "s1" } rfl rfl (by decide)).1

/-- Claim C9: a keyword start with type `"Step"`, args `["x"]`, empty
`assign` and name `"Lib.DoThing"`, inside a test with no top-level keyword
set, emits exactly one INFO log whose text uses the leaf name `"DoThing"`,
has an `Input data` clause listing `"x"` and no `Expected result` clause;
a keyword whose name contains a black-listed pattern emits nothing. -/
theorem C9_step_keyword_log :
    ∀ (st : ListenerState),
      st.current_scope = Scope.test → st.top_level_kw_name = none →
      ((start_keyword st "Lib.DoThing"
          { type := "Step", args := ["x"], assign := [] }).2 =
        [Call.log "!!!MARKDOWN_MODE!!!**[Step]** DoThing [Input data] x" "INFO"] ∧
       List.countP isLogCall (start_keyword st "Lib.DoThing"
          { type := "Step", args := ["x"], assign := [] }).2 = 1 ∧
       strContains "DoThing"
         "!!!MARKDOWN_MODE!!!**[Step]** DoThing [Input data] x" = true ∧
       strContains "Input data"
         "!!!MARKDOWN_MODE!!!**[Step]** DoThing [Input data] x" = true ∧
       strContains "Expected result"
         "!!!MARKDOWN_MODE!!!**[Step]** DoThing [Input data] x" = false) ∧
      (∀ (kn : String) (ka : KwAttrs),
        kw_black_list.any (fun x => strContains x kn) = true →
        (start_keyword st kn ka).2 = []) := by
  intro st hsc hm
  have hss : ∀ a : KwAttrs, suite_scoped st a = false :=
    fun a => suite_scoped_eq_false a hsc
  refine ⟨⟨?_, ?_, by decide, by decide, by decide⟩, fun kn ka hb => ?_⟩
  · have hnb : ¬ ∃ x ∈ kw_black_list, strContains x "Lib.DoThing" = true := by
      decide
    simp [start_keyword, hss, hm, hnb]
    try decide
  · have hnb : ¬ ∃ x ∈ kw_black_list, strContains x "Lib.DoThing" = true := by
      decide
    simp [start_keyword, hss, hm, hnb, isLogCall]
    try decide
  · simp [start_keyword, hss, hm, hb]

/-- Witness for C9: the scenario keyword emits its single INFO log in a
fresh test scope, and a black-listed keyword name emits nothing. -/
theorem C9_step_keyword_log_witness :
    (start_keyword { current_scope := Scope.test } "Lib.DoThing"
      { type := "Step", args := ["x"], assign := [] }).2 =
      [Call.log "!!!MARKDOWN_MODE!!!**[Step]** DoThing [Input data] x" "INFO"] ∧
    (start_keyword { current_scope := Scope.test } "BuiltIn.Log message"
      { type := "Keyword" }).2 = [] :=
  ⟨((C9_step_keyword_log { current_scope := Scope.test }) rfl rfl).1.1,
   ((C9_step_keyword_log { current_scope := Scope.test }) rfl rfl).2
     "BuiltIn.Log message" { type := "Keyword" } (by decide)⟩

/-- Claim C10: on the outermost suite, `end_suite` terminates the service,
then — when the launch was auto-created — finishes the launch, then
terminates the service again: two termination calls, the first preceding
the launch finish; with a supplied launch id there are still two
termination calls and no launch finish; a non-outermost suite triggers
neither termination nor launch finish. -/
theorem C10_end_suite_shutdown :
    ∀ (st : ListenerState) (n : String) (a : SuiteAttrs),
      (a.id = FIRST_SUITE_ID → st.launch_id = none →
        (end_suite st n a).2 =
          (if a.tests = [] then [] else [Call.finishSuite a.longname]) ++
          [Call.terminateService, Call.finishLaunch, Call.terminateService] ∧
        List.countP isTerminateCall (end_suite st n a).2 = 2) ∧
      (a.id = FIRST_SUITE_ID → st.launch_id ≠ none →
        (end_suite st n a).2 =
          (if a.tests = [] then [] else [Call.finishSuite a.longname]) ++
          [Call.terminateService, Call.terminateService] ∧
        List.countP isTerminateCall (end_suite st n a).2 = 2 ∧
        List.countP isFinishLaunchCall (end_suite st n a).2 = 0) ∧
      (a.id ≠ FIRST_SUITE_ID →
        List.countP isTerminateCall (end_suite st n a).2 = 0 ∧
        List.countP isFinishLaunchCall (end_suite st n a).2 = 0) := by
  intro st n a
  refine ⟨fun hid hl => ⟨?_, ?_⟩, fun hid hl => ⟨?_, ?_, ?_⟩, fun hid => ⟨?_, ?_⟩⟩
  all_goals by_cases ht : a.tests = []
  all_goals first
    | simp [end_suite, hid, hl, ht, isTerminateCall, isFinishLaunchCall,
        List.countP_cons, List.countP_nil, List.countP_append]
    | simp [end_suite, hid, ht, isTerminateCall, isFinishLaunchCall,
        List.countP_cons, List.countP_nil, List.countP_append]

/-- Witness for C10: a concrete outermost suite with an auto-created
launch issues suite close, terminate, launch finish, terminate; a
non-outermost suite issues no termination. -/
theorem C10_end_suite_shutdown_witness :
    (end_suite { } "S" { id := "s1", longname := "S", tests := ["t"] }).2 =
      [Call.finishSuite "S", Call.terminateService, Call.finishLaunch,
       Call.terminateService] ∧
    List.countP isTerminateCall
      (end_suite { launch_id := some "L" } "S" { id := "s2" }).2 = 0 := by
  constructor
  · have h := ((C10_end_suite_shutdown { } "S"
      { id := "s1", longname := "S", tests := ["t"] }).1 rfl rfl).1
    simpa using h
  · exact ((C10_end_suite_shutdown { launch_id := some "L" } "S"
      { id := "s2" }).2.2 (by decide)).1

end RPL
